import Mathlib

/-!
Verification of the Music-Search-Bot resolution engine
(`src/music_search_bot.py`) against its specification.

The Python source is shallowly embedded below: pure string helpers become
Lean functions over `String`/`List Char`, the stateful bot becomes explicit
state passing over a `BotSt` record, fractional quantities (delays,
relevance scores) are modelled with `ℚ`, and Python `time.sleep` calls are
recorded as trace events.  External network adapters (ytmusicapi, HTTP
fetches, HTML parsing) are inputs to the embedded functions: the fetched
pages / API results are parameters, so the embedding covers every possible
response.
-/

/-! ## Basic string machinery (Python `str` semantics)

Strings are processed as `List Char`.  `Char.toLower` agrees with Python
`str.lower` on the ASCII fragment, which is all the code's fixed token
lists use; accented letters are handled by the explicit NFD table below.
-/

/-- Python `needle in hay` substring test. -/
def strContainsL (hay needle : List Char) : Bool :=
  (List.range (hay.length + 1)).any (fun i => needle.isPrefixOf (hay.drop i))

/-- Python `needle in hay` on `String`s. -/
def strContains (hay needle : String) : Bool :=
  strContainsL hay.toList needle.toList

/-- Python `str.strip()`: drop leading and trailing whitespace. -/
def trimChars (l : List Char) : List Char :=
  ((l.dropWhile Char.isWhitespace).reverse.dropWhile Char.isWhitespace).reverse

/-- Python `str.strip()` on `String`. -/
def pyStrip (s : String) : String :=
  String.mk (trimChars s.toList)

/-- Python truthiness of an optional string (`None` and `""` are falsy). -/
def pyTruthyOpt (o : Option String) : Bool :=
  match o with
  | none => false
  | some s => s ≠ ""

/-! ## Query Normalizer (`normalize_text`, `clean_query`) -/

/-- Unicode NFD decomposition, restricted to the Latin accented letters the
repository's inputs use: an accented letter decomposes into its base letter
followed by a combining mark (U+0300–U+036F); every other character is
unchanged. -/
def nfdChar (c : Char) : List Char :=
  match c with
  | 'á' => ['a', '́'] | 'à' => ['a', '̀'] | 'â' => ['a', '̂']
  | 'ã' => ['a', '̃'] | 'ä' => ['a', '̈']
  | 'é' => ['e', '́'] | 'è' => ['e', '̀'] | 'ê' => ['e', '̂']
  | 'ë' => ['e', '̈']
  | 'í' => ['i', '́'] | 'ì' => ['i', '̀'] | 'î' => ['i', '̂']
  | 'ï' => ['i', '̈']
  | 'ó' => ['o', '́'] | 'ò' => ['o', '̀'] | 'ô' => ['o', '̂']
  | 'õ' => ['o', '̃'] | 'ö' => ['o', '̈']
  | 'ú' => ['u', '́'] | 'ù' => ['u', '̀'] | 'û' => ['u', '̂']
  | 'ü' => ['u', '̈']
  | 'ç' => ['c', '̧'] | 'ñ' => ['n', '̃']
  | 'Á' => ['A', '́'] | 'À' => ['A', '̀'] | 'Â' => ['A', '̂']
  | 'Ã' => ['A', '̃'] | 'Ä' => ['A', '̈']
  | 'É' => ['E', '́'] | 'Ê' => ['E', '̂']
  | 'Í' => ['I', '́'] | 'Ó' => ['O', '́'] | 'Ô' => ['O', '̂']
  | 'Õ' => ['O', '̃'] | 'Ú' => ['U', '́'] | 'Ü' => ['U', '̈']
  | 'Ç' => ['C', '̧'] | 'Ñ' => ['N', '̃']
  | _ => [c]

/-- Unicode category `Mn` (combining mark), restricted to the combining
diacritical block produced by `nfdChar`. -/
def isCombiningMark (c : Char) : Bool :=
  0x300 ≤ c.toNat ∧ c.toNat ≤ 0x36F

/-- `normalize_text(text)`: NFD-decompose, drop combining marks, lower-case,
strip.  The `if not text` guard of the source is the `""` case (the `None`
case is handled by callers that can pass `None`, see
`generate_search_variants_py`). -/
def normalize_text (text : String) : String :=
  String.mk (trimChars (((text.toList.flatMap nfdChar).filter
    (fun c => ¬ isCombiningMark c)).map Char.toLower))

/-- Characters counted by regex `\w` (ASCII fragment). -/
def isWordChar (c : Char) : Bool :=
  c.isAlphanum ∨ c = '_'

/-- One step of `re.sub(r'\(...\)', '', s)`-style bracket removal: on an
opening bracket that has a matching closing bracket later, drop through the
first closing bracket (the regex match is `open [^close]* close`, leftmost,
non-greedy by the character class); an opening bracket with no later closing
bracket matches nothing.  Fuel is the list length, enough because each step
consumes at least one character. -/
def removeBracketGo (op cl : Char) : Nat → List Char → List Char
  | 0, l => l
  | _ + 1, [] => []
  | fuel + 1, c :: rest =>
    if c = op ∧ rest.contains cl then
      removeBracketGo op cl fuel ((rest.dropWhile (fun x => x ≠ cl)).drop 1)
    else
      c :: removeBracketGo op cl fuel rest

/-- `re.sub(r'\([^)]*\)', '', s)` resp. `re.sub(r'\[[^\]]*\]', '', s)`. -/
def removeBracketSegs (op cl : Char) (s : String) : String :=
  String.mk (removeBracketGo op cl s.toList.length s.toList)

/-- Does the lower-cased pattern `pat` occur at index `i` of `l` with regex
word boundaries on both sides (case-insensitive match)?  Embeds the
matching of `r'\b term \b'` at a fixed position; the noise terms consist of
word characters, so `\b` means: previous/next character absent or not a
word character. -/
def matchesWordAt (pat l : List Char) (i : Nat) : Bool :=
  ((l.drop i).take pat.length).map Char.toLower = pat ∧
  (i = 0 ∨ ¬ isWordChar (l.getD (i - 1) ' ')) ∧
  (i + pat.length = l.length ∨ ¬ isWordChar (l.getD (i + pat.length) ' '))

/-- `re.sub(r'\b' + term + r'\b.*', '', s, flags=IGNORECASE)`: truncate the
string at the first whole-word occurrence of `term` (the `.*` swallows the
rest; the modelled strings are single-line, so `.*` reaches the end). -/
def truncateAtTerm (term : String) (s : String) : String :=
  let l := s.toList
  let p := term.toList.map Char.toLower
  match (List.range l.length).find? (fun i => matchesWordAt p l i) with
  | some i => String.mk (l.take i)
  | none => s

/-- `re.sub(r'\s+', ' ', s)`: collapse each whitespace run to one space.
Fuel is the list length; each step consumes at least one character. -/
def collapseWsGo : Nat → List Char → List Char
  | 0, l => l
  | _ + 1, [] => []
  | fuel + 1, c :: rest =>
    if c.isWhitespace then
      ' ' :: collapseWsGo fuel (rest.dropWhile Char.isWhitespace)
    else
      c :: collapseWsGo fuel rest

/-- `re.sub(r'\s+', ' ', s).strip()`. -/
def collapseWs (s : String) : String :=
  pyStrip (String.mk (collapseWsGo s.toList.length s.toList))

/-- The `remove_terms` noise list of `clean_query`, in source order. -/
def remove_terms : List String :=
  ["feat", "featuring", "ft", "remix", "edit", "mix", "version",
   "remaster", "remastered", "radio edit", "extended", "club mix",
   "acoustic", "live", "demo", "instrumental", "karaoke"]

/-- `clean_query(track_name, artist_name)` for string arguments: strip,
delete `(...)` and `[...]` segments, truncate the track at the first
whole-word noise term, collapse whitespace, normalize, and join as
`"<track> <artist>"`. -/
def clean_query (track_name artist_name : String) : String :=
  if track_name = "" ∨ artist_name = "" then ""
  else
    let ct := removeBracketSegs '[' ']'
      (removeBracketSegs '(' ')' (pyStrip track_name))
    let ct := remove_terms.foldl (fun s term => truncateAtTerm term s) ct
    let ca := removeBracketSegs '[' ']'
      (removeBracketSegs '(' ')' (pyStrip artist_name))
    let ct := normalize_text (collapseWs ct)
    let ca := normalize_text (collapseWs ca)
    pyStrip (ct ++ " " ++ ca)

/-- The dedup loop of `generate_search_variants`: keep the first occurrence
of each non-empty string (`if variant and variant not in seen`). -/
def dedupKeepFirst : List String → List String → List String
  | [], _ => []
  | v :: rest, seen =>
    if v ≠ "" ∧ ¬ seen.contains v then
      v :: dedupKeepFirst rest (v :: seen)
    else
      dedupKeepFirst rest seen

/-- `generate_search_variants(track_name, artist_name)` for string
arguments: the `clean_query` result, then the reordered
`"<artist> <track>"` (both parts normalized, no noise stripping), then the
normalized track alone when longer than 3 characters; deduplicated in
first-seen order and cut to 3 (`unique_variants[:3]`). -/
def generate_search_variants (track_name artist_name : String) : List String :=
  let main_query := clean_query track_name artist_name
  let v1 := if main_query ≠ "" then [main_query] else []
  let clean_track := normalize_text (pyStrip track_name)
  let clean_artist := normalize_text (pyStrip artist_name)
  let v2 := if clean_artist ≠ "" ∧ clean_track ≠ "" then
    [clean_artist ++ " " ++ clean_track] else []
  let v3 := if clean_track ≠ "" ∧ clean_track.length > 3 then
    [clean_track] else []
  (dedupKeepFirst (v1 ++ v2 ++ v3) []).take 3

/-- A Python exception surfacing from the embedded code. -/
inductive PyErr where
  | attributeError : PyErr
deriving DecidableEq

/-- `clean_query` as called with possibly-`None` arguments: the
`if not track_name or not artist_name` guard makes it total. -/
def clean_query_py (track_name artist_name : Option String) : String :=
  if ¬ pyTruthyOpt track_name ∨ ¬ pyTruthyOpt artist_name then ""
  else clean_query (track_name.getD "") (artist_name.getD "")

/-- `generate_search_variants` as called with possibly-`None` arguments:
`clean_query` guards against `None`, but the reorder step then calls
`track_name.strip()` and `artist_name.strip()` on the raw arguments, which
raises `AttributeError` on `None`. -/
def generate_search_variants_py (track_name artist_name : Option String) :
    Except PyErr (List String) :=
  let main_query := clean_query_py track_name artist_name
  match track_name with
  | none => .error .attributeError
  | some t =>
    match artist_name with
    | none => .error .attributeError
    | some a =>
      let v1 := if main_query ≠ "" then [main_query] else []
      let clean_track := normalize_text (pyStrip t)
      let clean_artist := normalize_text (pyStrip a)
      let v2 := if clean_artist ≠ "" ∧ clean_track ≠ "" then
        [clean_artist ++ " " ++ clean_track] else []
      let v3 := if clean_track ≠ "" ∧ clean_track.length > 3 then
        [clean_track] else []
      .ok ((dedupKeepFirst (v1 ++ v2 ++ v3) []).take 3)

/-- `is_valid_youtube_url(url)`: `re.match` of
`https://www\.youtube\.com/watch\?v=.{11}` is truthy, i.e. the URL starts
with the literal watch prefix followed by at least 11 characters none of
which is a newline (`.` does not match `\n`). -/
def is_valid_youtube_url (url : String) : Bool :=
  if url = "" then false
  else
    let p := "https://www.youtube.com/watch?v=".toList
    let l := url.toList
    p.isPrefixOf l ∧
      ((l.drop p.length).length ≥ 11 ∧
        ((l.drop p.length).take 11).all (fun c => c ≠ '\n'))

/-! ## Secondary File-Host Scraper (`FourSharedScraper`) -/

/-- A candidate link as built by `_find_audio_links` /
`_extract_link_from_item`. -/
structure Cand where
  url : String
  title : String
  relevance : ℚ
deriving DecidableEq

/-- The audio extension list of `_calculate_relevance`. -/
def relevance_audio_extensions : List String :=
  [".mp3", ".m4a", ".wav", ".flac", ".aac"]

/-- The demotion term list of `_calculate_relevance`. -/
def relevance_avoid_terms : List String :=
  ["remix", "karaoke", "instrumental", "cover", "live"]

/-- `FourSharedScraper._calculate_relevance(title, track_name, artist_name)`:
+0.5 when the normalized track occurs in the normalized title, +0.3 for the
artist, +0.2 for a recognized audio extension, −0.1 for each demotion term
that occurs, clamped below at 0.  Ternary guards on `track_name` /
`artist_name` mirror `normalize_text(x) if x else ""`. -/
def calculate_relevance (title track_name artist_name : String) : ℚ :=
  if title = "" then 0
  else
    let tl := normalize_text title
    let tr := if track_name ≠ "" then normalize_text track_name else ""
    let ar := if artist_name ≠ "" then normalize_text artist_name else ""
    let r1 : ℚ := if tr ≠ "" ∧ strContains tl tr then 0.5 else 0
    let r2 : ℚ := if ar ≠ "" ∧ strContains tl ar then 0.3 else 0
    let r3 : ℚ := if relevance_audio_extensions.any (fun e => strContains tl e)
      then 0.2 else 0
    let pen : ℚ :=
      0.1 * ((relevance_avoid_terms.filter (fun t => strContains tl t)).length : ℚ)
    max 0 (r1 + r2 + r3 - pen)

/-- First maximal element of a candidate list by relevance: the element a
stable descending sort (`sorted(..., reverse=True)`, Timsort is stable)
places first.  Ties keep the earlier candidate. -/
def bestCand (c : Cand) : List Cand → Cand
  | [] => c
  | x :: rest => bestCand (if x.relevance > c.relevance then x else c) rest

/-- `FourSharedScraper._select_best_link(links, ...)`: URL of the
highest-relevance candidate, earliest on ties. -/
def select_best_link (links : List Cand) : Option String :=
  match links with
  | [] => none
  | c :: rest => some ((bestCand c rest).url)

/-! ## Primary Catalog Search (`YouTubeMusicSearcher`) -/

/-- One entry of a `ytmusic.search` result list; `videoId` is
`result.get('videoId')` (absent → `none`), the other fields are
`result.get(key, '')` raw (the embedding lower-cases them where the source
does). -/
structure YTResult where
  videoId : Option String
  title : String
  resultType : String
  category : String
deriving DecidableEq

/-- Python `str.lower()` (ASCII fragment). -/
def pyLower (s : String) : String :=
  String.mk (s.toList.map Char.toLower)

/-- The `avoid_terms` list of `_is_valid_music_result` (matched inside
`result_type`). -/
def ytm_avoid_terms : List String :=
  ["playlist", "album", "artist", "interview", "documentary"]

/-- The `avoid_in_title` list of `_is_valid_music_result`. -/
def ytm_avoid_in_title : List String :=
  ["interview", "documentary", "behind the scenes", "making of"]

/-- `YouTubeMusicSearcher._is_valid_music_result(result)`: false without a
truthy `videoId`; true outright when the result type is `song`/`video` or
the category is `songs`/`music`; otherwise false when the result type
contains an avoid term or the title contains an avoid phrase, else true. -/
def is_valid_music_result (r : YTResult) : Bool :=
  match r.videoId with
  | none => false
  | some v =>
    if v = "" then false
    else
      let title := (pyLower r.title)
      let rt := (pyLower r.resultType)
      let cat := (pyLower r.category)
      if rt = "song" ∨ rt = "video" ∨ cat = "songs" ∨ cat = "music" then true
      else if ytm_avoid_terms.any (fun t => strContains rt t) then false
      else if ytm_avoid_in_title.any (fun t => strContains title t) then false
      else true

/-- The inner `for result in results` loop shared by both passes of
`YouTubeMusicSearcher.search`: watch-URL of the first valid result whose
`videoId` is truthy. -/
def firstValidUrl : List YTResult → Option String
  | [] => none
  | r :: rest =>
    if is_valid_music_result r then
      match r.videoId with
      | some v => if v ≠ "" then
          some ("https://www.youtube.com/watch?v=" ++ v)
        else firstValidUrl rest
      | none => firstValidUrl rest
    else firstValidUrl rest

/-- `YouTubeMusicSearcher.search(query)`: `none` when the client is
unavailable or the query empty; otherwise the first valid hit of the
`filter="songs"` result list, falling back to the unfiltered result list.
The two provider result lists are inputs (any API exception is caught and
yields `none`; that path is the caller choosing empty lists). -/
def ytms_search (available : Bool) (query : String)
    (filteredResults unfilteredResults : List YTResult) : Option String :=
  if ¬ available ∨ query = "" then none
  else
    match firstValidUrl filteredResults with
    | some u => some u
    | none => firstValidUrl unfilteredResults

/-- The acceptance rule as the claim words it: the result type or category
must indicate a song/video, the result type must contain none of the avoid
terms, and the title none of the avoid phrases. -/
def claimAccepts (r : YTResult) : Bool :=
  let title := (pyLower r.title)
  let rt := (pyLower r.resultType)
  let cat := (pyLower r.category)
  (rt = "song" ∨ rt = "video" ∨ cat = "songs" ∨ cat = "music") ∧
  ¬ (ytm_avoid_terms.any (fun t => strContains rt t)) ∧
  ¬ (ytm_avoid_in_title.any (fun t => strContains title t))

/-! ## Web Result Scraper (`YouTubeScraper`) -/

/-- A parsed JSON value (the `ytInitialData` blob). -/
inductive JVal where
  | str : String → JVal
  | num : Int → JVal
  | jbool : Bool → JVal
  | null : JVal
  | obj : List (String × JVal) → JVal
  | arr : List JVal → JVal

/-- The identifier character class `[a-zA-Z0-9_-]`. -/
def isIdChar (c : Char) : Bool :=
  c.isAlphanum ∨ c = '-' ∨ c = '_'

/-- Truthiness of `re.match(r'^[a-zA-Z0-9_-]+$', s)`: the whole string is a
non-empty run of identifier characters, or — because an unanchored `$`
also matches just before a single final newline — everything up to a final
newline is such a run. -/
def pyMatchIdFull (s : String) : Bool :=
  let l := s.toList
  if l = [] then false
  else if l.all isIdChar then true
  else l.getLast? = some '\n' ∧ l.dropLast ≠ [] ∧ l.dropLast.all isIdChar

/-- `YouTubeScraper._is_valid_video_id(video_id)`: a string (the
`isinstance` check) of length 11 matching `^[a-zA-Z0-9_-]+$` under Python
semantics. -/
def is_valid_video_id : JVal → Bool
  | .str s => s.length = 11 ∧ pyMatchIdFull s
  | _ => false

/-- Extract the string of a valid video id value. -/
def vidOf : JVal → Option String
  | .str s => if s.length = 11 ∧ pyMatchIdFull s then some s else none
  | _ => none

/-- The `if result: return result` propagation of the recursive search:
an empty string result would be falsy and the loop would continue. -/
def nonEmptyOpt : Option String → Option String
  | some s => if s = "" then none else some s
  | none => none

/-- `YouTubeScraper._recursive_search_video_id(data, max_depth)`: on a dict,
first check the `videoId` key for a valid id, then recurse into the values
in order at depth − 1; on a list, recurse into the items at depth − 1;
depth 0 gives `None`.  `List.findSome?` models the `if result: return
result` short-circuit (with `nonEmptyOpt` for the falsy-empty case). -/
def findVideoId : Nat → JVal → Option String
  | 0, _ => none
  | d + 1, v =>
    match v with
    | .obj fields =>
      match (fields.lookup "videoId").bind vidOf with
      | some s => some s
      | none =>
        (fields.map Prod.snd).findSome? (fun x => nonEmptyOpt (findVideoId d x))
    | .arr xs => xs.findSome? (fun x => nonEmptyOpt (findVideoId d x))
    | _ => none

/-- Python truthiness of a parsed JSON value (`if not yt_initial_data`). -/
def pyTruthyJVal : JVal → Bool
  | .str s => s ≠ ""
  | .num n => n ≠ 0
  | .jbool b => b
  | .null => false
  | .obj fields => ¬ fields.isEmpty
  | .arr xs => ¬ xs.isEmpty

/-- The watch-URL produced from a video id. -/
def mkWatchUrl (videoId : String) : String :=
  "https://www.youtube.com/watch?v=" ++ videoId

/-- `YouTubeScraper._search_attempt(query)` given the extracted
`ytInitialData` (`none` when the page had no data blob or the JSON failed
to parse): falsy data gives `None`; otherwise the first valid video id
found at `max_depth=10` gives the watch-URL. -/
def scraper_search_attempt (data : Option JVal) : Option String :=
  match data with
  | none => none
  | some d =>
    if ¬ pyTruthyJVal d then none
    else
      match findVideoId 10 d with
      | some videoId => if videoId ≠ "" then some (mkWatchUrl videoId) else none
      | none => none

/-- One iteration of `YouTubeScraper.search`'s internal retry loop as seen
from outside: the attempt either raised (transport error) or produced a
page whose extracted data is the payload.  The internal sleeps do not
affect the returned value and are not traced here. -/
inductive ScrapeAttempt where
  | exn : ScrapeAttempt
  | page : Option JVal → ScrapeAttempt

/-- The `for attempt in range(max_retries)` loop of
`YouTubeScraper.search`. -/
def scraperGo (att : Nat → ScrapeAttempt) : Nat → Nat → Option String
  | _, 0 => none
  | k, r + 1 =>
    match att k with
    | .exn => scraperGo att (k + 1) r
    | .page data =>
      match scraper_search_attempt data with
      | some url => some url
      | none => scraperGo att (k + 1) r

/-- `YouTubeScraper.search(query, max_retries)`: `None` on an empty query,
else the retry loop over `_search_attempt`. -/
def yt_scraper_search (query : String) (att : Nat → ScrapeAttempt)
    (max_retries : Nat) : Option String :=
  if query = "" then none else scraperGo att 0 max_retries

/-! ## Retry/Backoff Controller (`MusicSearchBot._search_with_retries`) -/

/-- What one invocation of the wrapped `search_func` does. -/
inductive AttemptOutcome where
  | ret : Option String → AttemptOutcome
  | httpErr : Option (Nat × Option String) → AttemptOutcome
  | exn : AttemptOutcome

/-- Which `time.sleep` site of `_search_with_retries` fired. -/
inductive SleepKind where
  | backoff : SleepKind
  | rateLimit : SleepKind
  | errWait : SleepKind
deriving DecidableEq

/-- A recorded `time.sleep` call. -/
structure SleepEv where
  kind : SleepKind
  amount : ℚ
deriving DecidableEq

/-- Result of a `_search_with_retries` call: return value, final shared
delay, sleep trace, and number of attempts entered. -/
structure RetryOut where
  result : Option String
  delay : ℚ
  sleeps : List SleepEv
  attempts : Nat
deriving DecidableEq

/-- Python `int(s)` on the `Retry-After` header: optional surrounding
whitespace, optional sign, decimal digits. -/
def pyIntParse (s : String) : Option Int :=
  let l := trimChars s.toList
  let digitsVal : List Char → Option Int := fun d =>
    if d ≠ [] ∧ d.all Char.isDigit then
      some (d.foldl (fun a c => a * 10 + ((c.toNat : Int) - 48)) 0)
    else none
  match l with
  | [] => none
  | c :: rest =>
    if c = '-' then (digitsVal rest).map (fun n => -n)
    else if c = '+' then digitsVal rest
    else digitsVal l

/-- The sleep chosen by the 429 handler, after the shared delay was already
updated to `d2`: a truthy `Retry-After` header that parses as a
non-negative integer is slept as-is; a negative parsed value makes
`time.sleep` itself raise `ValueError`, which the handler's
`except ValueError` catches, sleeping `d2 * 2` exactly like the
unparseable, empty-string (falsy) and absent cases. -/
def rateLimitSleep (retryAfter : Option String) (d2 : ℚ) : ℚ :=
  match retryAfter with
  | some ra =>
    if ra ≠ "" then
      match pyIntParse ra with
      | some n => if 0 ≤ n then (n : ℚ) else d2 * 2
      | none => d2 * 2
    else d2 * 2
  | none => d2 * 2

/-- Python truthiness of the `e.response` object:
`requests.Response.__bool__` returns `self.ok`, which is true iff the
status code is below 400.  In particular a response carrying status 429 is
falsy. -/
def pyRespTruthy (resp : Nat × Option String) : Bool :=
  resp.1 < 400

/-- The `for attempt in range(self.max_retries)` loop of
`_search_with_retries`.  `attempt` is the current index, the second `Nat`
the remaining iterations, then the current shared delay and the sleep trace
so far.  Attempt `k ≥ 1` first sleeps `min(delay * 2^k + jitter, 10.0)`;
a truthy result returns; on an `HTTPError` the source checks
`if e.response and e.response.status_code == 429` — the first conjunct is
the response object's truthiness (`pyRespTruthy`), so the 429 handler
(delay to `min(delay * 1.5, 5.0)`, sleep per `rateLimitSleep`) is embedded
behind that guard exactly as written; any other exception sleeps
`delay * (attempt + 1)` unless this was the last attempt. -/
def retryGo (f : Nat → AttemptOutcome) (jit : Nat → ℚ) :
    Nat → Nat → ℚ → List SleepEv → RetryOut
  | attempt, 0, d, ss => ⟨none, d, ss, attempt⟩
  | attempt, r + 1, d, ss =>
    let ss1 := if attempt = 0 then ss
      else ss ++ [⟨SleepKind.backoff, min (d * 2 ^ attempt + jit attempt) 10⟩]
    match f attempt with
    | .ret res =>
      if pyTruthyOpt res then ⟨res, d, ss1, attempt + 1⟩
      else retryGo f jit (attempt + 1) r d ss1
    | .httpErr resp =>
      match resp with
      | some e =>
        if pyRespTruthy e ∧ e.1 = 429 then
          let d2 := min (d * 1.5) 5
          retryGo f jit (attempt + 1) r d2
            (ss1 ++ [⟨SleepKind.rateLimit, rateLimitSleep e.2 d2⟩])
        else retryGo f jit (attempt + 1) r d ss1
      | none => retryGo f jit (attempt + 1) r d ss1
    | .exn =>
      let ss2 := if 1 ≤ r then ss1 ++ [⟨SleepKind.errWait, d * ((attempt : ℚ) + 1)⟩]
        else ss1
      retryGo f jit (attempt + 1) r d ss2

/-! ## Bot state and Track Resolver (`MusicSearchBot`) -/

/-- The `self.stats` dictionary. -/
structure Stats where
  total_songs : Nat
  youtube_found : Nat
  fourshared_found : Nat
  not_found : Nat
  errors : Nat
deriving DecidableEq

/-- All counters zero (a fresh `MusicSearchBot`). -/
def zeroStats : Stats := ⟨0, 0, 0, 0, 0⟩

/-- The mutable bot state threaded through a run: the shared adaptive
`self.delay` and `self.stats`. -/
structure BotSt where
  delay : ℚ
  stats : Stats
deriving DecidableEq

/-- `_search_with_retries` at the bot level: runs the retry loop on the
bot's shared delay and writes the (possibly rate-limit-adapted) delay back;
`self.stats` is untouched on every path. -/
def search_with_retries (f : Nat → AttemptOutcome) (jit : Nat → ℚ)
    (max_retries : Nat) (st : BotSt) : RetryOut × BotSt :=
  let o := retryGo f jit 0 max_retries st.delay []
  (o, ⟨o.delay, st.stats⟩)

/-- Result status of one track resolution. -/
inductive Status where
  | found : Status
  | not_found : Status
  | error : Status
deriving DecidableEq

/-- The result dictionary built by `search_single_track`. -/
structure SSTResult where
  track_name : Option String
  artist_name : Option String
  youtube_url : String
  fourshared_url : String
  status : Status
deriving DecidableEq

/-- The two per-variant search helpers `_search_youtube` and
`_search_fourshared`, abstracted over their external adapters: each takes
the variant query and the current shared delay and returns the optional URL
plus the (possibly rate-limit-adapted) delay.  `_search_fourshared` also
closes over the raw track/artist it receives.  Neither helper touches
`self.stats` or raises (`_search_with_retries` catches everything), which
this type makes structural. -/
structure SearchOracle where
  sy : String → ℚ → Option String × ℚ
  sf : String → ℚ → Option String × ℚ

/-- Bump exactly one `Stats` counter. -/
def bumpTotal (s : Stats) : Stats := { s with total_songs := s.total_songs + 1 }

/-- Bump `youtube_found`. -/
def bumpYt (s : Stats) : Stats := { s with youtube_found := s.youtube_found + 1 }

/-- Bump `fourshared_found`. -/
def bumpFs (s : Stats) : Stats :=
  { s with fourshared_found := s.fourshared_found + 1 }

/-- Bump `not_found`. -/
def bumpNf (s : Stats) : Stats := { s with not_found := s.not_found + 1 }

/-- Bump `errors`. -/
def bumpEr (s : Stats) : Stats := { s with errors := s.errors + 1 }

/-- The `for variant in search_variants` loop of `search_single_track`:
try YouTube, then 4shared; a truthy URL fills exactly one URL field, sets
`status='found'` and bumps the matching counter; exhaustion bumps
`not_found`.  The inter-variant `time.sleep(self.delay * 0.5)` does not
affect state and is not traced. -/
def sstLoop (O : SearchOracle) (base : SSTResult) :
    List String → BotSt → SSTResult × BotSt
  | [], st => (base, ⟨st.delay, bumpNf st.stats⟩)
  | v :: rest, st =>
    let y := O.sy v st.delay
    let st1 : BotSt := ⟨y.2, st.stats⟩
    if pyTruthyOpt y.1 then
      ({ base with youtube_url := y.1.getD "", status := Status.found },
       ⟨st1.delay, bumpYt st1.stats⟩)
    else
      let f := O.sf v st1.delay
      let st2 : BotSt := ⟨f.2, st1.stats⟩
      if pyTruthyOpt f.1 then
        ({ base with fourshared_url := f.1.getD "", status := Status.found },
         ⟨st2.delay, bumpFs st2.stats⟩)
      else sstLoop O base rest st2

/-- `MusicSearchBot.search_single_track(track_name, artist_name)`:
increments `total_songs`, generates variants (an exception there — possible
for `None` inputs — is caught by the enclosing `try` and bumps `errors`,
as does an empty variant list), then runs the variant loop. -/
def search_single_track (O : SearchOracle) (track_name artist_name : Option String)
    (st : BotSt) : SSTResult × BotSt :=
  let base : SSTResult := ⟨track_name, artist_name, "", "", Status.not_found⟩
  let st1 : BotSt := ⟨st.delay, bumpTotal st.stats⟩
  match generate_search_variants_py track_name artist_name with
  | .error _ => ({ base with status := Status.error }, ⟨st1.delay, bumpEr st1.stats⟩)
  | .ok vs =>
    if vs.isEmpty then
      ({ base with status := Status.error }, ⟨st1.delay, bumpEr st1.stats⟩)
    else sstLoop O base vs st1

/-- A sequence of `search_single_track` calls against the same bot
(oracle and arguments may differ per call). -/
def runCalls : List (SearchOracle × Option String × Option String) → BotSt → BotSt
  | [], st => st
  | c :: rest, st => runCalls rest (search_single_track c.1 c.2.1 c.2.2 st).2

/-- Sum of the four terminal counters. -/
def sumTerminal (s : Stats) : Nat :=
  s.youtube_found + s.fourshared_found + s.not_found + s.errors

/-! ## Run Orchestrator (`run_playlist`) -/

/-- One valid input row (`tracks_data` entry): the original DataFrame index
and the two non-empty stripped fields. -/
structure TrackData where
  index : Nat
  track_name : String
  artist_name : String
deriving DecidableEq

/-- One entry of the `results` list of `run_playlist`. -/
structure PLEntry where
  index : Nat
  track_name : String
  artist_name : String
  youtube_url : String
  fourshared_url : String
  status : Status
deriving DecidableEq

/-- The progress callback; `true` means the call raised (the orchestrator
wraps the whole per-track body in `try/except`).  Arguments are
`(completed, total, stats snapshot, last label)`. -/
def PCallback : Type := Nat → Nat → Stats → String → Bool

/-- The per-track loop of `run_playlist`, after driver-level filtering:
resolve the track, key the result by the original index, append it, then
invoke the progress callback; when the callback raises, the `except` branch
appends an additional `status=error` entry for the same track.  The
resolver itself never raises (it catches its own exceptions), so the
callback is the only raise point in the body; `time.sleep(delay)` is
state-free and untraced. -/
def runPlaylistLoop (O : SearchOracle) (cb : PCallback) (total : Nat) :
    List TrackData → Nat → BotSt → List PLEntry → List PLEntry × BotSt
  | [], _, st, acc => (acc, st)
  | td :: rest, i, st, acc =>
    let r := search_single_track O (some td.track_name) (some td.artist_name) st
    let entry : PLEntry := ⟨td.index, td.track_name, td.artist_name,
      r.1.youtube_url, r.1.fourshared_url, r.1.status⟩
    let acc1 := acc ++ [entry]
    let raised := cb (i + 1) total r.2.stats
      (td.track_name ++ " - " ++ td.artist_name)
    let acc2 := if raised then
      acc1 ++ [⟨td.index, td.track_name, td.artist_name, "", "", Status.error⟩]
    else acc1
    runPlaylistLoop O cb total rest (i + 1) r.2 acc2

/-- The processing core of `run_playlist` over the valid rows: the results
list and the final bot state. -/
def run_playlist_core (O : SearchOracle) (cb : PCallback)
    (tracks : List TrackData) (st : BotSt) : List PLEntry × BotSt :=
  runPlaylistLoop O cb tracks.length tracks 0 st []

/-! ## Claim-side definitions (worded from the spec's sentences, for
comparison against the source embeddings) and instrumentation -/

/-- The relevance formula as the claim words it: base bonuses summed, 0.1
per occurring demotion term subtracted, clamped below at 0 (an empty
normalized track/artist does not "appear" in the text, matching the
source's truthiness guards). -/
def claimRelevanceFormula (title track_name artist_name : String) : ℚ :=
  let tl := normalize_text title
  let tr := normalize_text track_name
  let ar := normalize_text artist_name
  max 0
    ((if tr ≠ "" ∧ strContains tl tr then (0.5 : ℚ) else 0) +
     (if ar ≠ "" ∧ strContains tl ar then (0.3 : ℚ) else 0) +
     (if relevance_audio_extensions.any (fun e => strContains tl e) then (0.2 : ℚ) else 0) -
     0.1 * ((relevance_avoid_terms.filter (fun t => strContains tl t)).length : ℚ))

/-- The "result-type/category indicates a song/video" part of the claim's
acceptance rule. -/
def claimTypeIndicates (r : YTResult) : Bool :=
  pyLower r.resultType = "song" ∨ pyLower r.resultType = "video" ∨
  pyLower r.category = "songs" ∨ pyLower r.category = "music"

/-- Does an attempt outcome short-circuit the retry loop (a truthy return
value)? -/
def attemptSucceeds : AttemptOutcome → Bool
  | .ret res => pyTruthyOpt res
  | _ => false

/-! ## Helper lemmas -/

/-- `dedupKeepFirst` yields distinct non-empty strings none already seen. -/
theorem dedupKeepFirst_props (l : List String) : ∀ seen : List String,
    (dedupKeepFirst l seen).Nodup ∧
      ∀ v ∈ dedupKeepFirst l seen, v ≠ "" ∧ v ∉ seen := by
  induction l with
  | nil => intro seen; simp [dedupKeepFirst]
  | cons x rest ih =>
    intro seen
    by_cases hx : x ≠ "" ∧ ¬ seen.contains x
    · rw [dedupKeepFirst, if_pos hx]
      obtain ⟨hn, hmem⟩ := ih (x :: seen)
      refine ⟨List.nodup_cons.mpr ⟨fun hm => ?_, hn⟩, ?_⟩
      · exact (hmem x hm).2 (List.mem_cons_self x seen)
      · intro v hv
        rcases List.mem_cons.mp hv with h | h
        · subst h
          exact ⟨hx.1, fun hs => hx.2 (List.elem_iff.mpr hs)⟩
        · obtain ⟨h1, h2⟩ := hmem v h
          exact ⟨h1, fun hs => h2 (List.mem_cons_of_mem _ hs)⟩
    · rw [dedupKeepFirst, if_neg hx]
      obtain ⟨hn, hmem⟩ := ih seen
      exact ⟨hn, hmem⟩

/-! ## Claim theorems -/

/-- Claim C7: `generate_search_variants` returns, deduplicated in first-seen
order and cut to three, the `clean_query` result, then the normalized
`"<artist> <track>"` reordering, then the normalized track alone when
longer than 3 characters; the result has at most 3 entries, is
duplicate-free, contains no empty string, and is `[]` when both inputs are
empty. -/
theorem c7_variant_generation :
    (∀ track artist : String,
      generate_search_variants track artist =
        (dedupKeepFirst
          ((if clean_query track artist ≠ "" then [clean_query track artist] else []) ++
           (if normalize_text (pyStrip artist) ≠ "" ∧ normalize_text (pyStrip track) ≠ "" then
              [normalize_text (pyStrip artist) ++ " " ++ normalize_text (pyStrip track)]
            else []) ++
           (if normalize_text (pyStrip track) ≠ "" ∧ (normalize_text (pyStrip track)).length > 3 then
              [normalize_text (pyStrip track)]
            else [])) []).take 3 ∧
      (generate_search_variants track artist).length ≤ 3 ∧
      (generate_search_variants track artist).Nodup ∧
      ∀ v ∈ generate_search_variants track artist, v ≠ "") ∧
    generate_search_variants "" "" = [] := by
  refine ⟨fun track artist => ⟨rfl, ?_, ?_, ?_⟩, by decide⟩
  · exact List.length_take_le 3 _
  · exact (List.take_sublist 3 _).nodup (dedupKeepFirst_props _ []).1
  · intro v hv
    exact ((dedupKeepFirst_props _ []).2 v ((List.take_sublist 3 _).mem hv)).1

/-- Claim C10: `generate_search_variants` raises on a `None` track name (for
any non-empty artist) and on a `None` artist name (for any non-empty track),
because the reorder step calls `.strip()` on the raw argument; with two
string arguments it totally returns the list of the string-level
function. -/
theorem c10_variant_none_inputs :
    (∀ a : String, a ≠ "" →
      generate_search_variants_py none (some a) = .error PyErr.attributeError) ∧
    (∀ t : String, t ≠ "" →
      generate_search_variants_py (some t) none = .error PyErr.attributeError) ∧
    (∀ t a : String,
      generate_search_variants_py (some t) (some a) =
        .ok (generate_search_variants t a)) := by
  refine ⟨fun a _ => rfl, fun t _ => rfl, fun t a => ?_⟩
  have hq : clean_query_py (some t) (some a) = clean_query t a := by
    by_cases ht : t = ""
    · subst ht; simp [clean_query_py, clean_query, pyTruthyOpt]
    · by_cases ha : a = ""
      · subst ha; simp [clean_query_py, clean_query, pyTruthyOpt]
      · simp [clean_query_py, pyTruthyOpt, ht, ha]
  simp only [generate_search_variants_py, generate_search_variants, hq]

/-- Claim C10 witness: the theorem at `track = "Bohemian Rhapsody"`,
`artist = "Queen"` and the two `None` combinations. -/
theorem c10_variant_none_inputs_witness :
    generate_search_variants_py none (some "Queen") = .error PyErr.attributeError ∧
    generate_search_variants_py (some "Bohemian Rhapsody") none = .error PyErr.attributeError ∧
    generate_search_variants_py (some "Bohemian Rhapsody") (some "Queen") =
      .ok (generate_search_variants "Bohemian Rhapsody" "Queen") :=
  ⟨c10_variant_none_inputs.1 "Queen" (by decide),
   c10_variant_none_inputs.2.1 "Bohemian Rhapsody" (by decide),
   c10_variant_none_inputs.2.2 "Bohemian Rhapsody" "Queen"⟩

/-- Nothing non-empty occurs in the empty string. -/
theorem strContains_empty (s : String) (h : s ≠ "") : strContains "" s = false := by
  obtain ⟨l⟩ := s
  cases l with
  | nil => exact absurd rfl h
  | cons c cs => rfl

/-- Arithmetic core of the relevance bounds. -/
theorem relevance_clamp_bounds (a b c p : ℚ) (ha : a = 0.5 ∨ a = 0)
    (hb : b = 0.3 ∨ b = 0) (hc : c = 0.2 ∨ c = 0) (hp : 0 ≤ p) :
    0 ≤ max 0 (a + b + c - p) ∧ max 0 (a + b + c - p) ≤ 1 := by
  refine ⟨le_max_left _ _, max_le (by norm_num) ?_⟩
  rcases ha with rfl | rfl <;> rcases hb with rfl | rfl <;>
    rcases hc with rfl | rfl <;> linarith

/-- `_calculate_relevance` computes the claim's formula. -/
theorem calculate_relevance_eq_claim (title track_name artist_name : String) :
    calculate_relevance title track_name artist_name =
      claimRelevanceFormula title track_name artist_name := by
  by_cases h : title = ""
  · subst h
    have h1 : ¬ (normalize_text track_name ≠ "" ∧
        strContains (normalize_text "") (normalize_text track_name) = true) := by
      rintro ⟨hne, hc⟩
      rw [show normalize_text "" = "" from rfl, strContains_empty _ hne] at hc
      exact Bool.false_ne_true hc
    have h2 : ¬ (normalize_text artist_name ≠ "" ∧
        strContains (normalize_text "") (normalize_text artist_name) = true) := by
      rintro ⟨hne, hc⟩
      rw [show normalize_text "" = "" from rfl, strContains_empty _ hne] at hc
      exact Bool.false_ne_true hc
    have h3 : ¬ ((relevance_audio_extensions.any
        (fun e => strContains (normalize_text "") e)) = true) := by decide
    have h4 : (relevance_avoid_terms.filter
        (fun t => strContains (normalize_text "") t)) = ([] : List String) := by
      decide
    simp only [claimRelevanceFormula, calculate_relevance, if_pos rfl,
      if_neg h1, if_neg h2, if_neg h3, h4]
    norm_num [max_def]
  · have e1 : (if track_name ≠ "" then normalize_text track_name else "") =
        normalize_text track_name := by
      by_cases ht : track_name = ""
      · subst ht; rfl
      · rw [if_pos ht]
    have e2 : (if artist_name ≠ "" then normalize_text artist_name else "") =
        normalize_text artist_name := by
      by_cases ha : artist_name = ""
      · subst ha; rfl
      · rw [if_pos ha]
    simp only [calculate_relevance, claimRelevanceFormula, if_neg h, e1, e2]

/-- Relevance of the exact-match candidate of the claim's scenario. -/
theorem c4_rel_first :
    calculate_relevance "Artist - Song.mp3" "Song" "Artist" = 1 := by
  have c1 : normalize_text "Song" ≠ "" ∧
      strContains (normalize_text "Artist - Song.mp3") (normalize_text "Song") = true := by
    decide
  have c2 : normalize_text "Artist" ≠ "" ∧
      strContains (normalize_text "Artist - Song.mp3") (normalize_text "Artist") = true := by
    decide
  have c3 : (relevance_audio_extensions.any
      (fun e => strContains (normalize_text "Artist - Song.mp3") e)) = true := by decide
  have h4 : (relevance_avoid_terms.filter
      (fun t => strContains (normalize_text "Artist - Song.mp3") t)) = ([] : List String) := by
    decide
  simp only [calculate_relevance]
  rw [if_neg (by decide : ¬ (("Artist - Song.mp3" : String) = "")),
    if_pos (by decide : ("Song" : String) ≠ ""),
    if_pos (by decide : ("Artist" : String) ≠ ""),
    if_pos c1, if_pos c2, if_pos c3, h4]
  norm_num [max_def]

/-- Relevance of the remix candidate of the claim's scenario. -/
theorem c4_rel_second :
    calculate_relevance "Artist - Song (Remix).mp3" "Song" "Artist" = 9 / 10 := by
  have c1 : normalize_text "Song" ≠ "" ∧
      strContains (normalize_text "Artist - Song (Remix).mp3") (normalize_text "Song") = true := by
    decide
  have c2 : normalize_text "Artist" ≠ "" ∧
      strContains (normalize_text "Artist - Song (Remix).mp3") (normalize_text "Artist") = true := by
    decide
  have c3 : (relevance_audio_extensions.any
      (fun e => strContains (normalize_text "Artist - Song (Remix).mp3") e)) = true := by
    decide
  have h4 : (relevance_avoid_terms.filter
      (fun t => strContains (normalize_text "Artist - Song (Remix).mp3") t)) =
      (["remix"] : List String) := by decide
  simp only [calculate_relevance]
  rw [if_neg (by decide : ¬ (("Artist - Song (Remix).mp3" : String) = "")),
    if_pos (by decide : ("Song" : String) ≠ ""),
    if_pos (by decide : ("Artist" : String) ≠ ""),
    if_pos c1, if_pos c2, if_pos c3, h4]
  norm_num [max_def]

/-- Claim C4: the relevance score equals the claim's formula, always lies in
[0, 1], and on the two candidates `"Artist - Song.mp3"` /
`"Artist - Song (Remix).mp3"` with matching track and artist the first
scores 1, the second 0.9, so the first scores strictly higher and its URL
is selected. -/
theorem c4_relevance_score :
    (∀ title track_name artist_name : String,
        calculate_relevance title track_name artist_name =
          claimRelevanceFormula title track_name artist_name ∧
        0 ≤ calculate_relevance title track_name artist_name ∧
        calculate_relevance title track_name artist_name ≤ 1) ∧
    calculate_relevance "Artist - Song.mp3" "Song" "Artist" = 1 ∧
    calculate_relevance "Artist - Song (Remix).mp3" "Song" "Artist" = 9 / 10 ∧
    calculate_relevance "Artist - Song (Remix).mp3" "Song" "Artist" <
      calculate_relevance "Artist - Song.mp3" "Song" "Artist" ∧
    select_best_link
        [⟨"/file/a.mp3", "Artist - Song.mp3",
            calculate_relevance "Artist - Song.mp3" "Song" "Artist"⟩,
         ⟨"/file/b.mp3", "Artist - Song (Remix).mp3",
            calculate_relevance "Artist - Song (Remix).mp3" "Song" "Artist"⟩] =
      some "/file/a.mp3" := by
  refine ⟨fun title track_name artist_name =>
    ⟨calculate_relevance_eq_claim title track_name artist_name, ?_⟩,
    c4_rel_first, c4_rel_second,
    by rw [c4_rel_first, c4_rel_second]; norm_num, ?_⟩
  · by_cases h : title = ""
    · simp [calculate_relevance, h]
    · simp only [calculate_relevance, if_neg h]
      exact relevance_clamp_bounds _ _ _ _
        (ite_eq_or_eq _ _ _) (ite_eq_or_eq _ _ _) (ite_eq_or_eq _ _ _)
        (by positivity)
  · simp only [select_best_link, bestCand, c4_rel_first, c4_rel_second]
    norm_num

/-- The source's acceptance test, characterized: a truthy `videoId`, and
either the type/category indicates a song/video (which bypasses every title
check), or the result type and title avoid-lists are both clean. -/
theorem is_valid_music_result_iff (r : YTResult) :
    is_valid_music_result r = true ↔
      pyTruthyOpt r.videoId = true ∧
        (claimTypeIndicates r = true ∨
          ((ytm_avoid_terms.any (fun t => strContains (pyLower r.resultType) t)) = false ∧
           (ytm_avoid_in_title.any (fun t => strContains (pyLower r.title) t)) = false)) := by
  obtain ⟨vid, title, rt, cat⟩ := r
  cases vid with
  | none => simp [is_valid_music_result, pyTruthyOpt]
  | some v =>
    by_cases hv : v = ""
    · simp [is_valid_music_result, pyTruthyOpt, hv]
    · simp only [is_valid_music_result, pyTruthyOpt, claimTypeIndicates, if_neg hv]
      by_cases hA : (pyLower rt = "song" ∨ pyLower rt = "video" ∨
          pyLower cat = "songs" ∨ pyLower cat = "music")
      · simp [hA, hv]
      · by_cases hB : (ytm_avoid_terms.any fun t => strContains (pyLower rt) t) = true
        · simp [hA, hB, hv]
        · by_cases hC : (ytm_avoid_in_title.any fun t => strContains (pyLower title) t) = true
          · simp [hA, hB, hC, hv]
          · simp [hA, hB, hC, hv]

/-- The per-list scan returns the watch-URL of the first accepted result. -/
theorem firstValidUrl_eq_find (rs : List YTResult) :
    firstValidUrl rs =
      (rs.find? is_valid_music_result).bind (fun r => r.videoId.map mkWatchUrl) := by
  induction rs with
  | nil => rfl
  | cons r rest ih =>
    by_cases h : is_valid_music_result r = true
    · obtain ⟨ht, _⟩ := (is_valid_music_result_iff r).mp h
      cases hvid : r.videoId with
      | none => rw [hvid] at ht; exact absurd ht (by simp [pyTruthyOpt])
      | some v =>
        have hv : v ≠ "" := by
          rw [hvid] at ht
          simpa [pyTruthyOpt] using ht
        rw [List.find?_cons_of_pos _ h]
        simp [firstValidUrl, h, hvid, hv, mkWatchUrl]
    · rw [List.find?_cons_of_neg _ h]
      simp only [firstValidUrl]
      rw [if_neg h]
      exact ih

/-- Claim C3 counterexample: the code accepts a `resultType = "song"` hit
whose title contains "interview" (the type check short-circuits the title
check), and also a hit with no type/category indication at all, both of
which the claim's acceptance rule rejects; the first is returned by the
search. -/
theorem c3_primary_search_counterexample :
    is_valid_music_result ⟨some "dQw4w9WgXcQ", "Artist interview", "song", ""⟩ = true ∧
    claimAccepts ⟨some "dQw4w9WgXcQ", "Artist interview", "song", ""⟩ = false ∧
    ytms_search true "q" [⟨some "dQw4w9WgXcQ", "Artist interview", "song", ""⟩] [] =
      some "https://www.youtube.com/watch?v=dQw4w9WgXcQ" ∧
    is_valid_music_result ⟨some "abcdefghijk", "Some Song", "", ""⟩ = true ∧
    claimAccepts ⟨some "abcdefghijk", "Some Song", "", ""⟩ = false := by
  decide

/-- Claim C3 (amended): `YouTubeMusicSearcher.search` accepts a candidate
iff it has a truthy `videoId` and either its result-type/category indicates
a song/video, or otherwise its result type contains no avoid term and its
title no avoid phrase; it returns the watch-URL of the first accepted
candidate of the songs-filtered list, falling back to the unfiltered list
only when the filtered list yields none, and returns `none` when the client
is unavailable or the query is empty. -/
theorem c3_primary_search_amended :
    (∀ r : YTResult, is_valid_music_result r = true ↔
      pyTruthyOpt r.videoId = true ∧
        (claimTypeIndicates r = true ∨
          ((ytm_avoid_terms.any (fun t => strContains (pyLower r.resultType) t)) = false ∧
           (ytm_avoid_in_title.any (fun t => strContains (pyLower r.title) t)) = false))) ∧
    (∀ rs : List YTResult, firstValidUrl rs =
      (rs.find? is_valid_music_result).bind (fun r => r.videoId.map mkWatchUrl)) ∧
    (∀ (q : String) (fl ufl : List YTResult),
      ytms_search true q fl ufl =
        if q = "" then none else (firstValidUrl fl).orElse (fun _ => firstValidUrl ufl)) ∧
    (∀ (q : String) (fl ufl : List YTResult), ytms_search false q fl ufl = none) := by
  refine ⟨is_valid_music_result_iff, firstValidUrl_eq_find, fun q fl ufl => ?_, fun q fl ufl => rfl⟩
  by_cases hq : q = ""
  · simp [ytms_search, hq]
  · cases h : firstValidUrl fl <;> simp [ytms_search, hq, h, Option.orElse]

/-- What a successful `^[a-zA-Z0-9_-]+$` match allows: all characters in
the class, or everything but a single final newline in the class. -/
theorem pyMatchIdFull_cases (s : String) (h : pyMatchIdFull s = true) :
    s.toList.all isIdChar = true ∨
      (s.toList.getLast? = some '\n' ∧ s.toList.dropLast.all isIdChar = true) := by
  have h2 : (if s.toList = [] then false
      else if s.toList.all isIdChar = true then true
      else decide (s.toList.getLast? = some '\n' ∧ s.toList.dropLast ≠ [] ∧
        s.toList.dropLast.all isIdChar = true)) = true := h
  split_ifs at h2 with h0 hall
  · exact Or.inl hall
  · simp only [decide_eq_true_eq] at h2
    exact Or.inr ⟨h2.1, h2.2.2⟩

/-- Identifier characters are not newlines. -/
theorem all_id_no_newline (l : List Char) (h : l.all isIdChar = true) :
    l.all (fun c => c ≠ '\n') = true := by
  rw [List.all_eq_true] at h ⊢
  intro c hc
  have h2 := h c hc
  simp only [decide_eq_true_eq]
  intro he
  subst he
  exact absurd h2 (by decide)

/-- Every id produced by the recursive search is an 11-character string
matching the Python id regex. -/
theorem findVideoId_props : ∀ (d : Nat) (v : JVal) (s : String),
    findVideoId d v = some s → s.length = 11 ∧ pyMatchIdFull s = true := by
  intro d
  induction d with
  | zero => intro v s h; exact absurd h (by simp [findVideoId])
  | succ d ih =>
    intro v s h
    cases v with
    | str s0 => exact absurd h (by simp [findVideoId])
    | num n => exact absurd h (by simp [findVideoId])
    | jbool b => exact absurd h (by simp [findVideoId])
    | null => exact absurd h (by simp [findVideoId])
    | obj fields =>
      rw [findVideoId] at h
      cases hvo : (fields.lookup "videoId").bind vidOf with
      | some s1 =>
        rw [hvo] at h
        have hes : s1 = s := Option.some.inj h
        obtain ⟨jv, _, hf⟩ := Option.bind_eq_some.mp hvo
        cases jv with
        | str s2 =>
          rw [vidOf] at hf
          split_ifs at hf with hc
          have he2 : s2 = s1 := Option.some.inj hf
          rw [he2, hes] at hc
          exact hc
        | num n => exact absurd hf (by simp [vidOf])
        | jbool b => exact absurd hf (by simp [vidOf])
        | null => exact absurd hf (by simp [vidOf])
        | obj f2 => exact absurd hf (by simp [vidOf])
        | arr x2 => exact absurd hf (by simp [vidOf])
      | none =>
        rw [hvo] at h
        obtain ⟨x, _, hx⟩ := List.exists_of_findSome?_eq_some h
        cases hfd : findVideoId d x with
        | none => rw [hfd] at hx; exact absurd hx (by simp [nonEmptyOpt])
        | some s1 =>
          rw [hfd] at hx
          simp only [nonEmptyOpt] at hx
          split_ifs at hx with he
          rw [← Option.some.inj hx]
          exact ih x s1 hfd
    | arr xs =>
      rw [findVideoId] at h
      obtain ⟨x, _, hx⟩ := List.exists_of_findSome?_eq_some h
      cases hfd : findVideoId d x with
      | none => rw [hfd] at hx; exact absurd hx (by simp [nonEmptyOpt])
      | some s1 =>
        rw [hfd] at hx
        simp only [nonEmptyOpt] at hx
        split_ifs at hx with he
        rw [← Option.some.inj hx]
        exact ih x s1 hfd

/-- An 11-character id yields a URL that passes `is_valid_youtube_url`
exactly when the id contains no newline. -/
theorem is_valid_youtube_url_mk (id : String) (h : id.length = 11) :
    is_valid_youtube_url (mkWatchUrl id) = true ↔
      id.toList.all (fun c => c ≠ '\n') = true := by
  have hdata : (mkWatchUrl id).toList =
      "https://www.youtube.com/watch?v=".toList ++ id.toList := rfl
  have hlen : id.toList.length = 11 := h
  have hne : mkWatchUrl id ≠ "" := by
    intro he
    have h0 : (mkWatchUrl id).toList.length = 0 := by rw [he]; rfl
    rw [hdata, List.length_append, hlen,
      show ("https://www.youtube.com/watch?v=".toList).length = 32 from by decide] at h0
    exact absurd h0 (by decide)
  have htake : id.toList.take 11 = id.toList :=
    List.take_of_length_le (by rw [hlen])
  simp only [is_valid_youtube_url, if_neg hne, hdata, List.drop_left, htake,
    List.isPrefixOf_iff_prefix]
  simp [List.prefix_append, hlen, h]

/-- Claim C9 counterexample: a page whose `videoId` field is
`"abcdefghij\n"` (10 class characters and a final newline: 11 characters,
and Python's `$` matches before the trailing newline) passes
`_is_valid_video_id`, so the scraper returns its watch-URL — which then
fails `is_valid_youtube_url`. -/
theorem c9_scraper_url_counterexample :
    yt_scraper_search "q"
        (fun _ => ScrapeAttempt.page
          (some (JVal.obj [("videoId", JVal.str "abcdefghij\n")]))) 2 =
      some "https://www.youtube.com/watch?v=abcdefghij\n" ∧
    is_valid_youtube_url "https://www.youtube.com/watch?v=abcdefghij\n" = false := by
  decide

/-- Claim C9 (amended): every non-none URL returned by
`YouTubeScraper.search` is the watch prefix followed by an identifier of
exactly 11 characters which either all lie in `[a-zA-Z0-9_-]` or consist of
10 such characters and a final newline (an artifact of Python's `$`
semantics); the URL passes `is_valid_youtube_url` iff the identifier has no
newline, so the newline case fails the Track Resolver's check. -/
theorem c9_scraper_url_amended :
    ∀ (q : String) (att : Nat → ScrapeAttempt) (max_retries : Nat) (url : String),
      yt_scraper_search q att max_retries = some url →
      ∃ id : String, url = mkWatchUrl id ∧ id.length = 11 ∧
        (id.toList.all isIdChar = true ∨
          (id.toList.getLast? = some '\n' ∧ id.toList.dropLast.all isIdChar = true)) ∧
        (is_valid_youtube_url url = true ↔ id.toList.all (fun c => c ≠ '\n') = true) ∧
        (id.toList.all isIdChar = true → is_valid_youtube_url url = true) ∧
        (id.toList.getLast? = some '\n' → is_valid_youtube_url url = false) := by
  intro q att max_retries url h
  rw [yt_scraper_search] at h
  split_ifs at h with hq
  have hgo : ∀ (r k : Nat), scraperGo att k r = some url →
      ∃ data, scraper_search_attempt data = some url := by
    intro r
    induction r with
    | zero => intro k hk; exact absurd hk (by simp [scraperGo])
    | succ r ihr =>
      intro k hk
      rw [scraperGo] at hk
      cases hatt : att k with
      | exn => simp only [hatt] at hk; exact ihr (k + 1) hk
      | page data =>
        simp only [hatt] at hk
        cases hsa : scraper_search_attempt data with
        | some u =>
          rw [hsa] at hk
          exact ⟨data, by rw [hsa, Option.some.inj hk]⟩
        | none => rw [hsa] at hk; exact ihr (k + 1) hk
  obtain ⟨data, hsa⟩ := hgo max_retries 0 h
  cases data with
  | none => exact absurd hsa (by simp [scraper_search_attempt])
  | some d =>
    rw [scraper_search_attempt] at hsa
    split_ifs at hsa with htr
    cases hfv : findVideoId 10 d with
    | none => simp only [hfv] at hsa; exact absurd hsa (by simp)
    | some vid =>
      simp only [hfv] at hsa
      split_ifs at hsa with hvne
      obtain rfl : mkWatchUrl vid = url := Option.some.inj hsa
      obtain ⟨hlen, hmatch⟩ := findVideoId_props 10 d vid hfv
      have hcases := pyMatchIdFull_cases vid hmatch
      have hiff := is_valid_youtube_url_mk vid hlen
      refine ⟨vid, rfl, hlen, hcases, hiff, ?_, ?_⟩
      · intro hall
        exact hiff.mpr (all_id_no_newline _ hall)
      · intro hlast
        obtain ⟨ys, hys⟩ := List.getLast?_eq_some_iff.mp hlast
        rcases hb : is_valid_youtube_url (mkWatchUrl vid) with _ | _
        · rfl
        · have hall := hiff.mp hb
          rw [List.all_eq_true] at hall
          have := hall '\n' (by rw [hys]; simp)
          simp at this

/-- Claim C9 witness: the amended theorem applied to a run whose page holds
a well-formed 11-character video id. -/
theorem c9_scraper_url_amended_witness :
    ∃ id : String,
      ("https://www.youtube.com/watch?v=abcdefghijk" : String) = mkWatchUrl id ∧
      id.length = 11 ∧
      (id.toList.all isIdChar = true ∨
        (id.toList.getLast? = some '\n' ∧ id.toList.dropLast.all isIdChar = true)) ∧
      (is_valid_youtube_url "https://www.youtube.com/watch?v=abcdefghijk" = true ↔
        id.toList.all (fun c => c ≠ '\n') = true) ∧
      (id.toList.all isIdChar = true →
        is_valid_youtube_url "https://www.youtube.com/watch?v=abcdefghijk" = true) ∧
      (id.toList.getLast? = some '\n' →
        is_valid_youtube_url "https://www.youtube.com/watch?v=abcdefghijk" = false) :=
  c9_scraper_url_amended "q"
    (fun _ => ScrapeAttempt.page
      (some (JVal.obj [("videoId", JVal.str "abcdefghijk")]))) 2
    "https://www.youtube.com/watch?v=abcdefghijk" (by decide)

/-- The retry loop enters at most `attempt + remaining` attempts. -/
theorem retryGo_attempts_le (f : Nat → AttemptOutcome) (jit : Nat → ℚ) :
    ∀ (r attempt : Nat) (d : ℚ) (ss : List SleepEv),
      (retryGo f jit attempt r d ss).attempts ≤ attempt + r := by
  intro r
  induction r with
  | zero => intro attempt d ss; simp [retryGo]
  | succ r ih =>
    intro attempt d ss
    simp only [retryGo]
    cases hf : f attempt with
    | ret res =>
      by_cases hres : pyTruthyOpt res = true
      · simp [hres]
      · simp only [Bool.not_eq_true] at hres
        simp [hres]
        exact le_trans (ih _ _ _) (by omega)
    | httpErr resp =>
      cases resp with
      | none => simp; exact le_trans (ih _ _ _) (by omega)
      | some e =>
        by_cases h4 : (pyRespTruthy e = true ∧ e.1 = 429)
        · simp [h4]; exact le_trans (ih _ _ _) (by omega)
        · simp [h4]; exact le_trans (ih _ _ _) (by omega)
    | exn => simp; exact le_trans (ih _ _ _) (by omega)

/-- When no attempt in range succeeds, the retry loop returns `none`. -/
theorem retryGo_none_of_fail (f : Nat → AttemptOutcome) (jit : Nat → ℚ) :
    ∀ (r attempt : Nat) (d : ℚ) (ss : List SleepEv),
      (∀ k, attempt ≤ k → k < attempt + r → attemptSucceeds (f k) = false) →
      (retryGo f jit attempt r d ss).result = none := by
  intro r
  induction r with
  | zero => intro attempt d ss _; simp [retryGo]
  | succ r ih =>
    intro attempt d ss hall
    simp only [retryGo]
    cases hf : f attempt with
    | ret res =>
      have hsucc := hall attempt (le_refl _) (by omega)
      rw [hf] at hsucc
      simp only [attemptSucceeds] at hsucc
      simp [hsucc]
      exact ih (attempt + 1) _ _ (fun k h1 h2 => hall k (by omega) (by omega))
    | httpErr resp =>
      cases resp with
      | none => simp; exact ih (attempt + 1) _ _ (fun k h1 h2 => hall k (by omega) (by omega))
      | some e =>
        by_cases h4 : (pyRespTruthy e = true ∧ e.1 = 429)
        · simp [h4]; exact ih (attempt + 1) _ _ (fun k h1 h2 => hall k (by omega) (by omega))
        · simp [h4]; exact ih (attempt + 1) _ _ (fun k h1 h2 => hall k (by omega) (by omega))
    | exn => simp; exact ih (attempt + 1) _ _ (fun k h1 h2 => hall k (by omega) (by omega))

/-- Claim C2: the retry controller enters at most `max_retries` attempts;
when no attempt returns a truthy result (exceptions included) it returns
`none` without propagating anything; a truthy first attempt returns
immediately with no sleep; and for a search function that returns empty
twice and then succeeds, with `max_retries = 3`, the result is the success
value and exactly the two backoff sleeps `min(delay·2^k + jitter, 10)` for
`k = 1, 2` occur, each at least the backoff floor when the jitter is at
least 0.1. -/
theorem c2_retry_controller :
    (∀ (f : Nat → AttemptOutcome) (jit : Nat → ℚ) (max_retries : Nat) (d : ℚ),
      (retryGo f jit 0 max_retries d []).attempts ≤ max_retries) ∧
    (∀ (f : Nat → AttemptOutcome) (jit : Nat → ℚ) (max_retries : Nat) (d : ℚ),
      (∀ k, k < max_retries → attemptSucceeds (f k) = false) →
      (retryGo f jit 0 max_retries d []).result = none) ∧
    (∀ (f : Nat → AttemptOutcome) (jit : Nat → ℚ) (max_retries : Nat) (d : ℚ) (s : String),
      1 ≤ max_retries → f 0 = AttemptOutcome.ret (some s) → s ≠ "" →
      retryGo f jit 0 max_retries d [] = ⟨some s, d, [], 1⟩) ∧
    (∀ (jit : Nat → ℚ) (d : ℚ) (s : String), s ≠ "" →
      retryGo (fun k => if k < 2 then AttemptOutcome.ret none
          else AttemptOutcome.ret (some s)) jit 0 3 d [] =
        ⟨some s, d,
          [⟨SleepKind.backoff, min (d * 2 ^ 1 + jit 1) 10⟩,
           ⟨SleepKind.backoff, min (d * 2 ^ 2 + jit 2) 10⟩], 3⟩) ∧
    (∀ (jit : Nat → ℚ) (d : ℚ) (s : String), s ≠ "" → 0 ≤ d →
      (∀ k, (0.1 : ℚ) ≤ jit k) →
      ∀ ev ∈ (retryGo (fun k => if k < 2 then AttemptOutcome.ret none
          else AttemptOutcome.ret (some s)) jit 0 3 d []).sleeps,
        ev.kind = SleepKind.backoff ∧ min (d * 2 + 0.1) 10 ≤ ev.amount) := by
  have scenario : ∀ (jit : Nat → ℚ) (d : ℚ) (s : String), s ≠ "" →
      retryGo (fun k => if k < 2 then AttemptOutcome.ret none
          else AttemptOutcome.ret (some s)) jit 0 3 d [] =
        ⟨some s, d,
          [⟨SleepKind.backoff, min (d * 2 ^ 1 + jit 1) 10⟩,
           ⟨SleepKind.backoff, min (d * 2 ^ 2 + jit 2) 10⟩], 3⟩ := by
    intro jit d s hs
    simp [retryGo, pyTruthyOpt, hs]
  refine ⟨?_, ?_, ?_, scenario, ?_⟩
  · intro f jit max_retries d
    have := retryGo_attempts_le f jit max_retries 0 d []
    omega
  · intro f jit max_retries d hfail
    exact retryGo_none_of_fail f jit max_retries 0 d []
      (fun k h1 h2 => hfail k (by omega))
  · intro f jit max_retries d s hmr hf0 hs
    obtain ⟨r, rfl⟩ : ∃ r, max_retries = r + 1 :=
      ⟨max_retries - 1, by omega⟩
    simp [retryGo, hf0, pyTruthyOpt, hs]
  · intro jit d s hs hd hjit ev hev
    rw [scenario jit d s hs] at hev
    have h21 : (2 : ℚ) ^ 1 = 2 := by norm_num
    have h22 : (2 : ℚ) ^ 2 = 4 := by norm_num
    simp at hev
    rcases hev with rfl | rfl
    · refine ⟨rfl, min_le_min ?_ le_rfl⟩
      norm_num
      linarith [hjit 1]
    · refine ⟨rfl, min_le_min ?_ le_rfl⟩
      norm_num
      linarith [hjit 2, hd]

/-- Claim C2 witness: the theorem's empty-twice-then-success scenario and
all-fail part applied at concrete inputs. -/
theorem c2_retry_controller_witness :
    retryGo (fun k => if k < 2 then AttemptOutcome.ret none
        else AttemptOutcome.ret (some "u")) (fun _ => (0.2 : ℚ)) 0 3 1 [] =
      ⟨some "u", 1,
        [⟨SleepKind.backoff, min ((1 : ℚ) * 2 ^ 1 + 0.2) 10⟩,
         ⟨SleepKind.backoff, min ((1 : ℚ) * 2 ^ 2 + 0.2) 10⟩], 3⟩ ∧
    (retryGo (fun _ => AttemptOutcome.exn) (fun _ => (0.2 : ℚ)) 0 3 1 []).result = none :=
  ⟨c2_retry_controller.2.2.2.1 (fun _ => (0.2 : ℚ)) 1 "u" (by decide),
   c2_retry_controller.2.1 (fun _ => AttemptOutcome.exn) (fun _ => (0.2 : ℚ)) 3 1
     (fun k _ => rfl)⟩

/-- Claim C5 (the 429 handler is dead code): the source guards the handler
with `if e.response and e.response.status_code == 429`, but
`requests.Response.__bool__` is `self.ok` (status below 400), so the
conjunction is identically false — no response object can be both truthy
and carry status 429.  Consequently an attempt raising an HTTP 429 leaves
the shared delay unchanged and produces no rate-limit sleep (the scenario
evaluates the loop on three consecutive 429s with `Retry-After: 5`: the
final delay is still `d`, the trace holds only the two backoff sleeps, and
the claimed `min(d * 1.5, 5)` update and 5-second sleep never happen); the
bot's stats are never touched by `_search_with_retries`. -/
theorem c5_rate_limit_429 :
    (∀ resp : Nat × Option String,
      (pyRespTruthy resp && decide (resp.1 = 429)) = false) ∧
    (∀ (jit : Nat → ℚ) (d : ℚ),
      retryGo (fun _ => AttemptOutcome.httpErr (some (429, some "5"))) jit 0 3 d [] =
        ⟨none, d,
          [⟨SleepKind.backoff, min (d * 2 ^ 1 + jit 1) 10⟩,
           ⟨SleepKind.backoff, min (d * 2 ^ 2 + jit 2) 10⟩], 3⟩) ∧
    (∀ (f : Nat → AttemptOutcome) (jit : Nat → ℚ) (max_retries : Nat) (st : BotSt),
      (search_with_retries f jit max_retries st).2.stats = st.stats) := by
  refine ⟨?_, ?_, fun f jit max_retries st => rfl⟩
  · intro resp
    by_cases h : resp.1 < 400
    · have h2 : resp.1 ≠ 429 := by omega
      simp [pyRespTruthy, h, h2]
    · simp [pyRespTruthy, h]
  · intro jit d
    simp [retryGo, pyRespTruthy]

/-- The variant loop bumps exactly one of `youtube_found`,
`fourshared_found`, `not_found`. -/
theorem sstLoop_stats (O : SearchOracle) (base : SSTResult) :
    ∀ (vs : List String) (st : BotSt),
      (sstLoop O base vs st).2.stats = bumpYt st.stats ∨
      (sstLoop O base vs st).2.stats = bumpFs st.stats ∨
      (sstLoop O base vs st).2.stats = bumpNf st.stats := by
  intro vs
  induction vs with
  | nil => intro st; right; right; rfl
  | cons v rest ih =>
    intro st
    simp only [sstLoop]
    by_cases hy : pyTruthyOpt (O.sy v st.delay).1 = true
    · rw [if_pos hy]
      left
      rfl
    · rw [if_neg hy]
      by_cases hf : pyTruthyOpt (O.sf v (O.sy v st.delay).2).1 = true
      · rw [if_pos hf]
        right
        left
        rfl
      · rw [if_neg hf]
        exact ih _

/-- Each `search_single_track` call bumps exactly one terminal counter on
top of the `total_songs` bump. -/
theorem search_single_track_stats (O : SearchOracle) (t a : Option String)
    (st : BotSt) :
    (search_single_track O t a st).2.stats = bumpYt (bumpTotal st.stats) ∨
    (search_single_track O t a st).2.stats = bumpFs (bumpTotal st.stats) ∨
    (search_single_track O t a st).2.stats = bumpNf (bumpTotal st.stats) ∨
    (search_single_track O t a st).2.stats = bumpEr (bumpTotal st.stats) := by
  simp only [search_single_track]
  cases hg : generate_search_variants_py t a with
  | error e =>
    right; right; right; rfl
  | ok vs =>
    by_cases hvs : vs.isEmpty = true
    · simp [hvs]
    · simp only [if_neg hvs]
      rcases sstLoop_stats O _ vs ⟨st.delay, bumpTotal st.stats⟩ with h | h | h
      · exact Or.inl h
      · exact Or.inr (Or.inl h)
      · exact Or.inr (Or.inr (Or.inl h))

/-- Along any call sequence the terminal counters sum to `total_songs`
whenever they did before. -/
theorem runCalls_sum (calls : List (SearchOracle × Option String × Option String)) :
    ∀ st : BotSt, sumTerminal st.stats = st.stats.total_songs →
      sumTerminal (runCalls calls st).stats = (runCalls calls st).stats.total_songs := by
  induction calls with
  | nil => intro st h; exact h
  | cons c rest ih =>
    intro st h
    simp only [sumTerminal] at h
    simp only [runCalls]
    apply ih
    rcases search_single_track_stats c.1 c.2.1 c.2.2 st with hh | hh | hh | hh <;>
      rw [hh] <;>
      simp [sumTerminal, bumpYt, bumpFs, bumpNf, bumpEr, bumpTotal] <;>
      omega

/-- Claim C1: every `search_single_track` call increments `total_songs` by
exactly 1 and exactly one of the four terminal counters by exactly 1, so
any call sequence starting from zeroed stats keeps
`youtube_found + fourshared_found + not_found + errors = total_songs`. -/
theorem c1_track_resolver_stats :
    (∀ (O : SearchOracle) (t a : Option String) (st : BotSt),
      (search_single_track O t a st).2.stats.total_songs = st.stats.total_songs + 1 ∧
      ((search_single_track O t a st).2.stats = bumpYt (bumpTotal st.stats) ∨
       (search_single_track O t a st).2.stats = bumpFs (bumpTotal st.stats) ∨
       (search_single_track O t a st).2.stats = bumpNf (bumpTotal st.stats) ∨
       (search_single_track O t a st).2.stats = bumpEr (bumpTotal st.stats))) ∧
    (∀ (calls : List (SearchOracle × Option String × Option String)) (d : ℚ),
      sumTerminal (runCalls calls ⟨d, zeroStats⟩).stats =
        (runCalls calls ⟨d, zeroStats⟩).stats.total_songs) := by
  constructor
  · intro O t a st
    refine ⟨?_, search_single_track_stats O t a st⟩
    rcases search_single_track_stats O t a st with h | h | h | h <;>
      rw [h] <;> simp [bumpYt, bumpFs, bumpNf, bumpEr, bumpTotal]
  · intro calls d
    exact runCalls_sum calls ⟨d, zeroStats⟩ rfl

/-- A truthy optional string has a non-empty payload. -/
theorem pyTruthyOpt_getD (o : Option String) (h : pyTruthyOpt o = true) :
    o.getD "" ≠ "" := by
  cases o with
  | none => exact absurd h (by simp [pyTruthyOpt])
  | some s =>
    simp only [pyTruthyOpt, decide_eq_true_eq] at h
    simpa using h

/-- URL fields produced by the variant loop: at most one is set, and
exactly one when the status is `found`. -/
theorem sstLoop_result (O : SearchOracle) (base : SSTResult)
    (hb1 : base.youtube_url = "") (hb2 : base.fourshared_url = "")
    (hb3 : base.status = Status.not_found) :
    ∀ (vs : List String) (st : BotSt),
      ((sstLoop O base vs st).1.youtube_url = "" ∨
        (sstLoop O base vs st).1.fourshared_url = "") ∧
      ((sstLoop O base vs st).1.status = Status.found →
        ((sstLoop O base vs st).1.youtube_url ≠ "" ∧
          (sstLoop O base vs st).1.fourshared_url = "") ∨
        ((sstLoop O base vs st).1.youtube_url = "" ∧
          (sstLoop O base vs st).1.fourshared_url ≠ "")) := by
  intro vs
  induction vs with
  | nil =>
    intro st
    refine ⟨Or.inl hb1, fun hfound => ?_⟩
    simp only [sstLoop] at hfound
    rw [hb3] at hfound
    exact absurd hfound (by simp)
  | cons v rest ih =>
    intro st
    simp only [sstLoop]
    by_cases hy : pyTruthyOpt (O.sy v st.delay).1 = true
    · rw [if_pos hy]
      refine ⟨Or.inr hb2, fun _ => Or.inl ⟨?_, hb2⟩⟩
      exact pyTruthyOpt_getD _ hy
    · rw [if_neg hy]
      by_cases hf : pyTruthyOpt (O.sf v (O.sy v st.delay).2).1 = true
      · rw [if_pos hf]
        refine ⟨Or.inl hb1, fun _ => Or.inr ⟨hb1, ?_⟩⟩
        exact pyTruthyOpt_getD _ hf
      · rw [if_neg hf]
        exact ih _

/-- Claim C6: the `SearchResult` of `search_single_track` never has both URL
fields non-empty, and when `status = found` exactly one of the two is
non-empty. -/
theorem c6_url_exclusivity :
    ∀ (O : SearchOracle) (t a : Option String) (st : BotSt),
      ((search_single_track O t a st).1.youtube_url = "" ∨
        (search_single_track O t a st).1.fourshared_url = "") ∧
      ((search_single_track O t a st).1.status = Status.found →
        ((search_single_track O t a st).1.youtube_url ≠ "" ∧
          (search_single_track O t a st).1.fourshared_url = "") ∨
        ((search_single_track O t a st).1.youtube_url = "" ∧
          (search_single_track O t a st).1.fourshared_url ≠ "")) := by
  intro O t a st
  simp only [search_single_track]
  cases hg : generate_search_variants_py t a with
  | error e =>
    exact ⟨Or.inl rfl, fun hfound => absurd hfound (by simp)⟩
  | ok vs =>
    dsimp only
    by_cases hvs : vs.isEmpty = true
    · rw [if_pos hvs]
      exact ⟨Or.inl rfl, fun hfound => absurd hfound (by simp)⟩
    · rw [if_neg hvs]
      exact sstLoop_result O _ rfl rfl rfl vs _

/-- Claim C6 witness: the theorem at a concrete oracle whose YouTube search
succeeds, with the found-status implication discharged. -/
theorem c6_url_exclusivity_witness :
    ((search_single_track ⟨fun _ d => (some "u", d), fun _ d => (none, d)⟩
        (some "abcd") (some "x") ⟨1, zeroStats⟩).1.youtube_url = "" ∨
      (search_single_track ⟨fun _ d => (some "u", d), fun _ d => (none, d)⟩
        (some "abcd") (some "x") ⟨1, zeroStats⟩).1.fourshared_url = "") ∧
    (((search_single_track ⟨fun _ d => (some "u", d), fun _ d => (none, d)⟩
        (some "abcd") (some "x") ⟨1, zeroStats⟩).1.youtube_url ≠ "" ∧
      (search_single_track ⟨fun _ d => (some "u", d), fun _ d => (none, d)⟩
        (some "abcd") (some "x") ⟨1, zeroStats⟩).1.fourshared_url = "") ∨
     ((search_single_track ⟨fun _ d => (some "u", d), fun _ d => (none, d)⟩
        (some "abcd") (some "x") ⟨1, zeroStats⟩).1.youtube_url = "" ∧
      (search_single_track ⟨fun _ d => (some "u", d), fun _ d => (none, d)⟩
        (some "abcd") (some "x") ⟨1, zeroStats⟩).1.fourshared_url ≠ "")) :=
  ⟨(c6_url_exclusivity ⟨fun _ d => (some "u", d), fun _ d => (none, d)⟩
      (some "abcd") (some "x") ⟨1, zeroStats⟩).1,
   (c6_url_exclusivity ⟨fun _ d => (some "u", d), fun _ d => (none, d)⟩
      (some "abcd") (some "x") ⟨1, zeroStats⟩).2 (by decide)⟩

/-- Singleton `flatMap` over the index projection is a `map`. -/
theorem flatMap_index_singleton (tracks : List TrackData) :
    tracks.flatMap (fun td => [td.index]) = tracks.map TrackData.index := by
  induction tracks with
  | nil => rfl
  | cons td rest ih => simp [ih]

/-- Index trace of the playlist loop under a constant-outcome callback:
each track contributes its own index once, twice when the callback
raises. -/
theorem runPlaylistLoop_map_index (O : SearchOracle) (b : Bool) (total : Nat) :
    ∀ (tracks : List TrackData) (i : Nat) (st : BotSt) (acc : List PLEntry),
      (runPlaylistLoop O (fun _ _ _ _ => b) total tracks i st acc).1.map PLEntry.index =
        acc.map PLEntry.index ++
          tracks.flatMap (fun td => if b then [td.index, td.index] else [td.index]) := by
  intro tracks
  induction tracks with
  | nil => intro i st acc; simp [runPlaylistLoop]
  | cons td rest ih =>
    intro i st acc
    simp only [runPlaylistLoop]
    cases b with
    | false =>
      rw [if_neg (by simp)]
      rw [ih]
      simp
    | true =>
      rw [if_pos rfl]
      rw [ih]
      simp

/-- Claim C8 counterexample: with a progress callback that raises, a single
valid track yields two result entries (its real `not_found` entry and a
second `status=error` entry with the same index), so the results list is
not one entry per track. -/
theorem c8_playlist_counterexample :
    (run_playlist_core ⟨fun _ d => (none, d), fun _ d => (none, d)⟩
        (fun _ _ _ _ => true) [⟨0, "abcd", "x"⟩] ⟨1, zeroStats⟩).1 =
      [⟨0, "abcd", "x", "", "", Status.not_found⟩,
       ⟨0, "abcd", "x", "", "", Status.error⟩] ∧
    ([(⟨0, "abcd", "x"⟩ : TrackData)] : List TrackData).length = 1 ∧
    (run_playlist_core ⟨fun _ d => (none, d), fun _ d => (none, d)⟩
        (fun _ _ _ _ => true) [⟨0, "abcd", "x"⟩] ⟨1, zeroStats⟩).1.length = 2 := by
  refine ⟨by decide, rfl, by decide⟩

/-- Claim C8 (amended): when the progress callback never raises,
`run_playlist` produces exactly one result entry per valid input track,
keyed by the track's original index in input order; the resolver itself
never raises (it catches its own exceptions), and a callback that raises
after a track's entry was appended adds one extra `status=error` entry with
the same index for that track. -/
theorem c8_playlist_amended :
    (∀ (O : SearchOracle) (cb : PCallback) (tracks : List TrackData) (st : BotSt),
      (∀ i t s l, cb i t s l = false) →
      (run_playlist_core O cb tracks st).1.map PLEntry.index =
        tracks.map TrackData.index) ∧
    (∀ (O : SearchOracle) (b : Bool) (tracks : List TrackData) (st : BotSt),
      (run_playlist_core O (fun _ _ _ _ => b) tracks st).1.map PLEntry.index =
        tracks.flatMap (fun td => if b then [td.index, td.index] else [td.index])) := by
  constructor
  · intro O cb tracks st h
    have hcb : cb = fun _ _ _ _ => false := by
      funext i t s l
      exact h i t s l
    subst hcb
    rw [run_playlist_core, runPlaylistLoop_map_index]
    simp only [List.map_nil, List.nil_append]
    simp only [if_neg (by simp : ¬ (false = true))]
    exact flatMap_index_singleton tracks
  · intro O b tracks st
    rw [run_playlist_core, runPlaylistLoop_map_index]
    rfl

/-- Claim C8 witness: the amended theorem with a never-raising callback on a
one-track input. -/
theorem c8_playlist_amended_witness :
    (run_playlist_core ⟨fun _ d => (none, d), fun _ d => (none, d)⟩
        (fun _ _ _ _ => false) [⟨5, "abcd", "x"⟩] ⟨1, zeroStats⟩).1.map PLEntry.index =
      ([⟨5, "abcd", "x"⟩] : List TrackData).map TrackData.index :=
  c8_playlist_amended.1 ⟨fun _ d => (none, d), fun _ d => (none, d)⟩
    (fun _ _ _ _ => false) [⟨5, "abcd", "x"⟩] ⟨1, zeroStats⟩
    (fun _ _ _ _ => rfl)

/-- Claim C7 witness: the theorem at `("Song", "Band")`, with the
membership hypothesis of the non-emptiness conjunct discharged at the first
variant. -/
theorem c7_variant_generation_witness :
    (generate_search_variants "Song" "Band").length ≤ 3 ∧
    ("song band" : String) ≠ "" :=
  ⟨(c7_variant_generation.1 "Song" "Band").2.1,
   (c7_variant_generation.1 "Song" "Band").2.2.2 "song band" (by decide)⟩
